import Mathlib

/-!
Shallow embedding of the `mcp_lab` repository (files `src/lab/tools.py`,
`src/lab/main.py`, `src/lab/old_app.py`).

External effects are made explicit:
* the database is an oracle (`DbOracle`) deciding whether `sqlite3.connect`
  succeeds and what `pd.read_sql_query` does for a given SQL text and
  positional parameter tuple;
* the Ollama HTTP endpoint is an oracle (`Oracle`) deciding the outcome of
  the `/api/tags` probe, the tool-selection chat call, the phrasing chat
  call, and what `json.loads` returns on a given argument string;
* every function additionally returns the list of observable events it
  performs (connection open/close, query execution, HTTP requests,
  argument-parse attempts);
* Python exceptions are an explicit `Except Exn` value: `Except.error`
  means the Python function exits by raising instead of returning.
-/

/-! ## Python-style dictionaries (insertion ordered, last-write-wins) -/

/-- Lookup in an insertion-ordered association list, as Python `d[k]` / `k in d`. -/
def dictLookup {α : Type} (l : List (String × α)) (k : String) : Option α :=
  match l with
  | [] => none
  | (k', v) :: t => if k' = k then some v else dictLookup t k

/-- Assignment `d[k] = v` on a Python dict: an existing key keeps its
position and gets the new value, a fresh key is appended at the end. -/
def dictInsert {α : Type} (l : List (String × α)) (k : String) (v : α) :
    List (String × α) :=
  match l with
  | [] => [(k, v)]
  | (k', v') :: t => if k' = k then (k, v) :: t else (k', v') :: dictInsert t k v

/-- Substring test on character lists (Python `needle in haystack`). -/
def containsSub (haystack needle : List Char) : Bool :=
  match haystack with
  | [] => needle.isEmpty
  | _ :: rest => needle.isPrefixOf haystack || containsSub rest needle

/-- Python `needle in haystack` for strings. -/
def strContainsSub (haystack needle : String) : Bool :=
  containsSub haystack.toList needle.toList

/-- Python `s.lower()` (ASCII range, which is all this code base feeds it). -/
def pyLower (s : String) : String :=
  String.mk (s.data.map Char.toLower)

/-- Python `s.strip()`: whitespace removed from both ends. -/
def pyStrip (s : String) : String :=
  String.mk (((s.data.dropWhile Char.isWhitespace).reverse.dropWhile
    Char.isWhitespace).reverse)

/-- Fuel-driven worker for Python `s.split(sep)` over character lists:
non-overlapping, left to right, empty pieces preserved.  Each step consumes
at least one character, so `fuel = l.length` is always enough. -/
def pySplitAux (sep : List Char) : Nat → List Char → List (List Char)
  | _, [] => [[]]
  | 0, l => [l]
  | fuel + 1, c :: rest =>
      if sep.isPrefixOf (c :: rest) then
        [] :: pySplitAux sep fuel (List.drop (sep.length - 1) rest)
      else
        match pySplitAux sep fuel rest with
        | [] => [[c]]
        | h :: t => (c :: h) :: t

/-- Python `s.split(sep)` for a non-empty separator. -/
def pySplit (sep s : String) : List String :=
  (pySplitAux sep.data s.data.length s.data).map String.mk

/-! ## Exceptions and tool results -/

/-- The Python exceptions that flow through this code base.  `sqlite3.Error`
raised by query execution is represented separately inside `QueryOutcome`;
an `otherError` stands for any exception that is not a `sqlite3.Error`. -/
inductive Exn where
  | valueError (msg : String)
  | typeError (msg : String)
  | attributeError (msg : String)
  | otherError (msg : String)
  deriving DecidableEq

/-- `str(e)` of an exception: the message used in f-string interpolation. -/
def exnMsg : Exn → String
  | .valueError m => m
  | .typeError m => m
  | .attributeError m => m
  | .otherError m => m

/-- The value a lookup function (or the dispatcher) hands back:
a dict `\x7b"error": msg\x7d`, a Python list of strings, or a rendered string. -/
inductive ToolResult where
  | errDict (msg : String)
  | strList (msgs : List String)
  | str (s : String)
  deriving DecidableEq

/-! ## Database model (`tools.py`) -/

/-- Observable database actions performed by a lookup function. -/
inductive DbEvent where
  | openConn
  | execQuery (sql : String) (params : List String)
  | closeConn
  deriving DecidableEq

/-- A dataframe as returned by `pd.read_sql_query`: `df.empty` is `rows = []`. -/
structure Table where
  headers : List String
  rows : List (List String)
  deriving DecidableEq

/-- What `pd.read_sql_query` does on one execution: return a dataframe, or
raise — `err true` is a `sqlite3.Error` (caught by the lookup functions),
`err false` any other exception (not caught by them). -/
inductive QueryOutcome where
  | rows (t : Table)
  | err (sqlite : Bool) (msg : String)
  deriving DecidableEq

/-- The database environment: whether `sqlite3.connect` succeeds
(`get_db_connection` returns `None` exactly when it does not), and the
behaviour of query execution for a given SQL text and parameter tuple. -/
structure DbOracle where
  connOk : Bool
  queryResult : String → List String → QueryOutcome

/-- `df.to_markdown(index=False)`: render headers and rows as a text table. -/
def to_markdown (t : Table) : String :=
  "| " ++ String.intercalate " | " t.headers ++ " |\n" ++
    String.intercalate "\n" (t.rows.map fun r => "| " ++ String.intercalate " | " r ++ " |")

/-- The SQL template of `get_customers_by_country` (a string literal). -/
def customersQuery : String :=
  "SELECT CompanyName FROM Customers WHERE Country = ? LIMIT 10"

/-- The SQL template of `get_orders_by_customer` (a string literal). -/
def ordersQuery : String :=
  "SELECT OrderID, OrderDate, ShipCountry FROM Orders WHERE CustomerID = ? LIMIT 5"

/-- The SQL template of `get_products_by_category` (a triple-quoted literal). -/
def productsQuery : String :=
  "\n        SELECT p.ProductName, p.UnitPrice, c.CategoryName\n        FROM Products p\n        JOIN Categories c ON p.CategoryID = c.CategoryID\n        WHERE c.CategoryName = ?\n        LIMIT 10\n        "

/-- The SQL template of `get_employees_by_region` (a triple-quoted literal). -/
def employeesQuery : String :=
  "\n        SELECT e.FirstName, e.LastName, r.RegionDescription\n        FROM Employees e\n        JOIN EmployeeTerritories et ON e.EmployeeID = et.EmployeeID\n        JOIN Territories t ON et.TerritoryID = t.TerritoryID\n        JOIN Regions r ON t.RegionID = r.RegionID\n        WHERE r.RegionDescription = ?\n        LIMIT 10\n        "

/-- The SQL template of `get_suppliers_by_country` (a string literal). -/
def suppliersQuery : String :=
  "SELECT CompanyName, ContactName, Country FROM Suppliers WHERE Country = ? LIMIT 10"

/-- `tools.get_customers_by_country`.  The first component is the Python
return value (`Except.error` = the function exits by raising), the second
the database events it performed. -/
def get_customers_by_country (country : String) (o : DbOracle) :
    Except Exn ToolResult × List DbEvent :=
  if o.connOk = false then
    (.ok (.errDict "Database connection failed"), [])
  else
    match o.queryResult customersQuery [country] with
    | .rows df =>
        if df.rows = [] then
          (.ok (.strList ["No customers found"]),
            [.openConn, .execQuery customersQuery [country], .closeConn])
        else
          (.ok (.str (to_markdown df)),
            [.openConn, .execQuery customersQuery [country], .closeConn])
    | .err true msg =>
        (.ok (.errDict ("Database error: " ++ msg)),
          [.openConn, .execQuery customersQuery [country], .closeConn])
    | .err false msg =>
        (.error (.otherError msg),
          [.openConn, .execQuery customersQuery [country]])

/-- `tools.get_orders_by_customer`. -/
def get_orders_by_customer (customer_id : String) (o : DbOracle) :
    Except Exn ToolResult × List DbEvent :=
  if o.connOk = false then
    (.ok (.errDict "Database connection failed"), [])
  else
    match o.queryResult ordersQuery [customer_id] with
    | .rows df =>
        if df.rows = [] then
          (.ok (.strList ["No orders found"]),
            [.openConn, .execQuery ordersQuery [customer_id], .closeConn])
        else
          (.ok (.str (to_markdown df)),
            [.openConn, .execQuery ordersQuery [customer_id], .closeConn])
    | .err true msg =>
        (.ok (.errDict ("Database error: " ++ msg)),
          [.openConn, .execQuery ordersQuery [customer_id], .closeConn])
    | .err false msg =>
        (.error (.otherError msg),
          [.openConn, .execQuery ordersQuery [customer_id]])

/-- `tools.get_products_by_category`. -/
def get_products_by_category (category_name : String) (o : DbOracle) :
    Except Exn ToolResult × List DbEvent :=
  if o.connOk = false then
    (.ok (.errDict "Database connection failed"), [])
  else
    match o.queryResult productsQuery [category_name] with
    | .rows df =>
        if df.rows = [] then
          (.ok (.strList ["No products found"]),
            [.openConn, .execQuery productsQuery [category_name], .closeConn])
        else
          (.ok (.str (to_markdown df)),
            [.openConn, .execQuery productsQuery [category_name], .closeConn])
    | .err true msg =>
        (.ok (.errDict ("Database error: " ++ msg)),
          [.openConn, .execQuery productsQuery [category_name], .closeConn])
    | .err false msg =>
        (.error (.otherError msg),
          [.openConn, .execQuery productsQuery [category_name]])

/-- `tools.get_employees_by_region`. -/
def get_employees_by_region (region : String) (o : DbOracle) :
    Except Exn ToolResult × List DbEvent :=
  if o.connOk = false then
    (.ok (.errDict "Database connection failed"), [])
  else
    match o.queryResult employeesQuery [region] with
    | .rows df =>
        if df.rows = [] then
          (.ok (.strList ["No employees found"]),
            [.openConn, .execQuery employeesQuery [region], .closeConn])
        else
          (.ok (.str (to_markdown df)),
            [.openConn, .execQuery employeesQuery [region], .closeConn])
    | .err true msg =>
        (.ok (.errDict ("Database error: " ++ msg)),
          [.openConn, .execQuery employeesQuery [region], .closeConn])
    | .err false msg =>
        (.error (.otherError msg),
          [.openConn, .execQuery employeesQuery [region]])

/-- `tools.get_suppliers_by_country`. -/
def get_suppliers_by_country (country : String) (o : DbOracle) :
    Except Exn ToolResult × List DbEvent :=
  if o.connOk = false then
    (.ok (.errDict "Database connection failed"), [])
  else
    match o.queryResult suppliersQuery [country] with
    | .rows df =>
        if df.rows = [] then
          (.ok (.strList ["No suppliers found"]),
            [.openConn, .execQuery suppliersQuery [country], .closeConn])
        else
          (.ok (.str (to_markdown df)),
            [.openConn, .execQuery suppliersQuery [country], .closeConn])
    | .err true msg =>
        (.ok (.errDict ("Database error: " ++ msg)),
          [.openConn, .execQuery suppliersQuery [country], .closeConn])
    | .err false msg =>
        (.error (.otherError msg),
          [.openConn, .execQuery suppliersQuery [country]])

/-! ## Tool registry (`tools.py`) -/

/-- What `json.loads` (or the wire) produced for the tool-call arguments once
the orchestrator is past the string case: a JSON object (dict whose values
are the strings handed to the lookup functions) or some non-dict value,
described by its Python type name. -/
inductive ParsedArgs where
  | pdict (d : List (String × String))
  | pother (typeName : String)
  deriving DecidableEq

/-- A Python function object as stored in the registry: the name of its
single positional parameter (from its `def` signature) and its body. -/
structure PyFunc where
  pname : String
  run : String → DbOracle → Except Exn ToolResult × List DbEvent

/-- `f(**params)`: keyword-argument expansion at the call site.  A non-dict
payload, a missing required argument, or an unexpected keyword raises a
`TypeError` before the body runs. -/
def kwapply (f : PyFunc) (params : ParsedArgs) (o : DbOracle) :
    Except Exn ToolResult × List DbEvent :=
  match params with
  | .pother t =>
      (.error (.typeError ("argument after ** must be a mapping, not " ++ t)), [])
  | .pdict [(k, v)] =>
      if k = f.pname then f.run v o
      else (.error (.typeError ("got an unexpected keyword argument " ++ k)), [])
  | .pdict _ =>
      (.error (.typeError "positional or keyword argument mismatch"), [])

/-- One property inside a tool's JSON-schema `properties` object. -/
structure PropertySchema where
  ptype : String
  description : String
  deriving DecidableEq

/-- The `parameters` JSON-schema object of a tool. -/
structure ParamSchema where
  ptype : String
  properties : List (String × PropertySchema)
  required : List String
  deriving DecidableEq

/-- The inner `function` object of a tool schema. -/
structure FunctionSchema where
  name : String
  description : String
  parameters : ParamSchema
  deriving DecidableEq

/-- The wire-format tool descriptor `\x7b"type": "function", "function": ...\x7d`. -/
structure ToolSchema where
  ttype : String
  function : FunctionSchema
  deriving DecidableEq

/-- `tools.ToolRegistry`: the descriptor list and the name → function dict. -/
structure ToolRegistry where
  tools : List ToolSchema
  tool_functions : List (String × PyFunc)

/-- `ToolRegistry.__init__`: empty list, empty dict. -/
def ToolRegistry.init : ToolRegistry := ⟨[], []⟩

/-- `ToolRegistry.register_tool`: append the schema to `self.tools` and
assign `self.tool_functions[name] = func`. -/
def ToolRegistry.register_tool (r : ToolRegistry) (name description : String)
    (parameters : ParamSchema) (func : PyFunc) : ToolRegistry :=
  { tools := r.tools ++ [⟨"function", ⟨name, description, parameters⟩⟩],
    tool_functions := dictInsert r.tool_functions name func }

/-- `ToolRegistry.get_tools`. -/
def ToolRegistry.get_tools (r : ToolRegistry) : List ToolSchema := r.tools

/-- `ToolRegistry.get_tool_functions`. -/
def ToolRegistry.get_tool_functions (r : ToolRegistry) : List (String × PyFunc) :=
  r.tool_functions

/-- The module-level `registry` of `tools.py`, populated by the five
`register_tool` calls, in source order. -/
def registry : ToolRegistry :=
  ((((ToolRegistry.init.register_tool
      "get_customers_by_country"
      "Retrieve a list of customers from a specified country"
      ⟨"object", [("country", ⟨"string", "The country to filter customers by"⟩)],
        ["country"]⟩
      ⟨"country", get_customers_by_country⟩).register_tool
      "get_orders_by_customer"
      "Retrieve all orders placed by a specific customer"
      ⟨"object", [("customer_id", ⟨"string", "The ID of the customer"⟩)],
        ["customer_id"]⟩
      ⟨"customer_id", get_orders_by_customer⟩).register_tool
      "get_products_by_category"
      "Retrieve all products in a specific category"
      ⟨"object", [("category_name", ⟨"string", "The name of the category"⟩)],
        ["category_name"]⟩
      ⟨"category_name", get_products_by_category⟩).register_tool
      "get_employees_by_region"
      "Retrieve all employees working in a specific region"
      ⟨"object", [("region", ⟨"string", "The region to filter employees by"⟩)],
        ["region"]⟩
      ⟨"region", get_employees_by_region⟩).register_tool
      "get_suppliers_by_country"
      "Retrieve all suppliers from a specified country"
      ⟨"object", [("country", ⟨"string", "The country to filter suppliers by"⟩)],
        ["country"]⟩
      ⟨"country", get_suppliers_by_country⟩

/-- `tools.get_tool_registry`. -/
def get_tool_registry : ToolRegistry := registry

/-! ## Ollama / orchestrator model (`main.py`, `old_app.py`) -/

/-- Observable external actions of the orchestrator. -/
inductive Event where
  | tagsRequest
  | chatToolSelect (query : String) (tools : List ToolSchema)
  | parseArgs (s : String)
  | chatPhrasing (original_query : String)
  | db (e : DbEvent)
  deriving DecidableEq

/-- The `arguments` field of a tool call on the wire: a JSON-encoded string,
a JSON object, or some other JSON value (named by its Python type). -/
inductive ArgVal where
  | str (s : String)
  | dict (d : List (String × String))
  | other (typeName : String)
  deriving DecidableEq

/-- One entry of `message.tool_calls`: `function.name` (possibly missing)
and `function.arguments` (Python default `\x7b\x7d` when missing). -/
structure ToolCallData where
  name : Option String
  arguments : ArgVal
  deriving DecidableEq

/-- The `message` object of a chat response; a missing `message` or a
missing `tool_calls` key is the empty list, a missing `content` is `none`. -/
structure MessageData where
  toolCalls : List ToolCallData
  content : Option String
  deriving DecidableEq

/-- Outcome of the tool-selection chat call: a `requests.RequestException`
(connection error, timeout, or `raise_for_status`), or a parsed response. -/
inductive ChatOutcome where
  | reqErr (msg : String)
  | ok (message : MessageData)
  deriving DecidableEq

/-- Outcome of the phrasing chat call. -/
inductive FinalOutcome where
  | reqErr (msg : String)
  | ok (content : Option String)
  deriving DecidableEq

/-- The external world of one `process_query` run: the `/api/tags` probe
(model-name list or request error), the two chat calls, the behaviour of
`json.loads` on argument strings, and the database. -/
structure Oracle where
  tags : Except String (List String)
  chat : ChatOutcome
  finalChat : FinalOutcome
  jsonLoads : String → Except String ParsedArgs
  db : DbOracle

/-- Python truthiness of `tool_name` in `if tool_name:` —
`None` and `""` are falsy. -/
def strTruthy : Option String → Bool
  | none => false
  | some s => !(s == "")

/-- The fallback text returned when the model proposes no tool call. -/
def noToolMessage : String :=
  "No specific tool required for this query. Please refine your query or check tool availability."

/-- The second component of a `get_tool_call` result: the dict
`\x7b"error": msg\x7d`, the dict `\x7b"message": m\x7d`, or the parsed arguments. -/
inductive ToolCallOut where
  | err (msg : String)
  | msg (m : String)
  | args (p : ParsedArgs)
  deriving DecidableEq

/-- The Python value denoted by the second component of a `get_tool_call`
result: `.err` and `.msg` are the dicts `\x7b"error": msg\x7d` and
`\x7b"message": m\x7d`, `.args` the parsed arguments themselves. -/
def ToolCallOut.toPyVal : ToolCallOut → ParsedArgs
  | .err m => .pdict [("error", m)]
  | .msg m => .pdict [("message", m)]
  | .args p => p

/-- `params.get("message", "Unable to process query")` as executed by
`process_query` on the second tuple component: on a non-dict `params`
(possible when `json.loads` returned a non-object) `.get` raises
`AttributeError`. -/
def pyGetMessage (params : ToolCallOut) : Except Exn String :=
  match params with
  | .err _ => .ok "Unable to process query"
  | .msg m => .ok m
  | .args (.pdict d) => .ok ((dictLookup d "message").getD "Unable to process query")
  | .args (.pother t) =>
      .error (.attributeError ("object of type " ++ t ++ " has no attribute get"))

namespace Main

/-- `main.MODEL`. -/
def MODEL : String := "llama3.2"

/-- `main.check_ollama`: probe `/api/tags`; `False` on a request error or
when `f"\x7bMODEL\x7d:latest"` is not among the listed model names. -/
def check_ollama (o : Oracle) : Bool :=
  match o.tags with
  | .error _ => false
  | .ok models => models.contains (MODEL ++ ":latest")

/-- `main.get_tool_call`.  First component: the returned pair, or the
`ValueError` it raises when `json.loads` fails on string arguments.
Second component: the HTTP requests and parse attempts performed. -/
def get_tool_call (query : String) (tool_registry : ToolRegistry) (o : Oracle) :
    Except Exn (Option String × ToolCallOut) × List Event :=
  if check_ollama o = false then
    (.ok (none, .err ("Ollama API or model " ++ MODEL ++ " unavailable")), [.tagsRequest])
  else
    match o.chat with
    | .reqErr m =>
        (.ok (none, .err m), [.tagsRequest, .chatToolSelect query tool_registry.get_tools])
    | .ok message =>
        match message.toolCalls with
        | [] =>
            (.ok (none, .msg noToolMessage), [.tagsRequest, .chatToolSelect query tool_registry.get_tools])
        | tool_call :: _ =>
            match tool_call.arguments with
            | .str s =>
                (match o.jsonLoads s with
                 | .ok p =>
                     (.ok (tool_call.name, .args p),
                       [.tagsRequest, .chatToolSelect query tool_registry.get_tools, .parseArgs s])
                 | .error e =>
                     (.error (.valueError ("Failed to parse arguments: " ++ e)),
                       [.tagsRequest, .chatToolSelect query tool_registry.get_tools, .parseArgs s]))
            | .dict d =>
                (.ok (tool_call.name, .args (.pdict d)),
                  [.tagsRequest, .chatToolSelect query tool_registry.get_tools])
            | .other t =>
                (.ok (none, .err ("Invalid arguments type: " ++ t)),
                  [.tagsRequest, .chatToolSelect query tool_registry.get_tools])

/-- `main.call_mcp_tool`: dict lookup, then invocation with `**params`;
every exception of the invocation is caught and converted to an error dict. -/
def call_mcp_tool (tool_name : String) (params : ParsedArgs)
    (tool_registry : ToolRegistry) (o : DbOracle) : ToolResult × List Event :=
  match dictLookup tool_registry.get_tool_functions tool_name with
  | some f =>
      match kwapply f params o with
      | (.ok r, tr) => (r, tr.map .db)
      | (.error e, tr) =>
          (.errDict ("Tool execution failed: " ++ exnMsg e), tr.map .db)
  | none => (.errDict ("Unknown tool: " ++ tool_name), [])

/-- `main.get_final_response`: an error dict short-circuits; otherwise the
phrasing chat call, whose request errors are caught. -/
def get_final_response (tool_response : ToolResult) (original_query : String)
    (o : Oracle) : String × List Event :=
  match tool_response with
  | .errDict m => (m, [])
  | _ =>
      match o.finalChat with
      | .reqErr m => ("Error generating final response: " ++ m, [.chatPhrasing original_query])
      | .ok c => (c.getD "No content returned", [.chatPhrasing original_query])

/-- The body of `main.process_query` inside its `try:` — the part that can
still raise (`Except.error`). -/
def process_query_body (query : String) (tool_registry : ToolRegistry)
    (o : Oracle) : Except Exn String × List Event :=
  match get_tool_call query tool_registry o with
  | (.error e, ev) => (.error e, ev)
  | (.ok (tool_name, params), ev) =>
      if strTruthy tool_name then
        match call_mcp_tool (tool_name.getD "") params.toPyVal tool_registry o.db with
        | (tool_response, ev2) =>
            match get_final_response tool_response query o with
            | (final_response, ev3) => (.ok final_response, ev ++ ev2 ++ ev3)
      else
        match pyGetMessage params with
        | .ok s => (.ok s, ev)
        | .error e => (.error e, ev)

/-- `main.process_query`: the body wrapped in `except Exception`, which
turns any raised fault into the `"Error processing query: ..."` string. -/
def process_query (query : String) (tool_registry : ToolRegistry) (o : Oracle) :
    String × List Event :=
  match process_query_body query tool_registry o with
  | (.ok s, ev) => (s, ev)
  | (.error e, ev) => ("Error processing query: " ++ exnMsg e, ev)

end Main

namespace OldApp

/-- `old_app.MODEL`. -/
def MODEL : String := "qwen2.5"

/-- `old_app.check_ollama`. -/
def check_ollama (o : Oracle) : Bool :=
  match o.tags with
  | .error _ => false
  | .ok models => models.contains (MODEL ++ ":latest")

/-- `old_app.get_tool_call`: like `main.get_tool_call`, but when the model
returns no tool call it first tries a manual fallback — if the lowercased
query contains `"customers from"`, it dispatches `get_customers_by_country`
with `query.split("from")[-1].strip()` as the country. -/
def get_tool_call (query : String) (tool_registry : ToolRegistry) (o : Oracle) :
    Except Exn (Option String × ToolCallOut) × List Event :=
  if check_ollama o = false then
    (.ok (none, .err ("Ollama API or model " ++ MODEL ++ " unavailable")), [.tagsRequest])
  else
    match o.chat with
    | .reqErr m =>
        (.ok (none, .err m), [.tagsRequest, .chatToolSelect query tool_registry.get_tools])
    | .ok message =>
        match message.toolCalls with
        | [] =>
            if strContainsSub (pyLower query) "customers from" then
              (.ok (some "get_customers_by_country",
                  .args (.pdict [("country", pyStrip ((pySplit "from" query).getLastD ""))])),
                [.tagsRequest, .chatToolSelect query tool_registry.get_tools])
            else
              (.ok (none, .msg noToolMessage),
                [.tagsRequest, .chatToolSelect query tool_registry.get_tools])
        | tool_call :: _ =>
            match tool_call.arguments with
            | .str s =>
                (match o.jsonLoads s with
                 | .ok p =>
                     (.ok (tool_call.name, .args p),
                       [.tagsRequest, .chatToolSelect query tool_registry.get_tools, .parseArgs s])
                 | .error e =>
                     (.error (.valueError ("Failed to parse arguments: " ++ e)),
                       [.tagsRequest, .chatToolSelect query tool_registry.get_tools, .parseArgs s]))
            | .dict d =>
                (.ok (tool_call.name, .args (.pdict d)),
                  [.tagsRequest, .chatToolSelect query tool_registry.get_tools])
            | .other t =>
                (.ok (none, .err ("Invalid arguments type: " ++ t)),
                  [.tagsRequest, .chatToolSelect query tool_registry.get_tools])

/-- `old_app.call_mcp_tool` (same code as `main.call_mcp_tool`). -/
def call_mcp_tool (tool_name : String) (params : ParsedArgs)
    (tool_registry : ToolRegistry) (o : DbOracle) : ToolResult × List Event :=
  match dictLookup tool_registry.get_tool_functions tool_name with
  | some f =>
      match kwapply f params o with
      | (.ok r, tr) => (r, tr.map .db)
      | (.error e, tr) =>
          (.errDict ("Tool execution failed: " ++ exnMsg e), tr.map .db)
  | none => (.errDict ("Unknown tool: " ++ tool_name), [])

/-- `old_app.get_final_response` (same control flow as in `main.py`). -/
def get_final_response (tool_response : ToolResult) (original_query : String)
    (o : Oracle) : String × List Event :=
  match tool_response with
  | .errDict m => (m, [])
  | _ =>
      match o.finalChat with
      | .reqErr m => ("Error generating final response: " ++ m, [.chatPhrasing original_query])
      | .ok c => (c.getD "No content returned", [.chatPhrasing original_query])

/-- The body of `old_app.process_query` inside its `try:`. -/
def process_query_body (query : String) (tool_registry : ToolRegistry)
    (o : Oracle) : Except Exn String × List Event :=
  match get_tool_call query tool_registry o with
  | (.error e, ev) => (.error e, ev)
  | (.ok (tool_name, params), ev) =>
      if strTruthy tool_name then
        match call_mcp_tool (tool_name.getD "") params.toPyVal tool_registry o.db with
        | (tool_response, ev2) =>
            match get_final_response tool_response query o with
            | (final_response, ev3) => (.ok final_response, ev ++ ev2 ++ ev3)
      else
        match pyGetMessage params with
        | .ok s => (.ok s, ev)
        | .error e => (.error e, ev)

/-- `old_app.process_query`: body wrapped in the catch-all. -/
def process_query (query : String) (tool_registry : ToolRegistry) (o : Oracle) :
    String × List Event :=
  match process_query_body query tool_registry o with
  | (.ok s, ev) => (s, ev)
  | (.error e, ev) => ("Error processing query: " ++ exnMsg e, ev)

end OldApp

/-! ## Theorems -/

/-- The query executions contained in a database event trace: the SQL text
submitted and the positional binding list, in order. -/
def queryEvents : List DbEvent → List (String × List String)
  | [] => []
  | .execQuery s p :: t => (s, p) :: queryEvents t
  | .openConn :: t => queryEvents t
  | .closeConn :: t => queryEvents t

/-- C1: For every lookup function and every string value of its single
parameter, the SQL text submitted to the database is the fixed template of
that function — independent of the parameter value — and the parameter is
supplied only via the positional binding list: whenever a connection is
available the function submits exactly one query, whose text is the
constant template and whose binding list is exactly the parameter, so no
input string can alter the executed query's structure. -/
theorem sql_template_independent_of_argument (arg : String) (o : DbOracle) :
    queryEvents (get_customers_by_country arg o).2
      = (if o.connOk = true then [(customersQuery, [arg])] else []) ∧
    queryEvents (get_orders_by_customer arg o).2
      = (if o.connOk = true then [(ordersQuery, [arg])] else []) ∧
    queryEvents (get_products_by_category arg o).2
      = (if o.connOk = true then [(productsQuery, [arg])] else []) ∧
    queryEvents (get_employees_by_region arg o).2
      = (if o.connOk = true then [(employeesQuery, [arg])] else []) ∧
    queryEvents (get_suppliers_by_country arg o).2
      = (if o.connOk = true then [(suppliersQuery, [arg])] else []) := by
  refine ⟨?_, ?_, ?_, ?_, ?_⟩ <;>
  · cases hc : o.connOk
    case false =>
      simp [get_customers_by_country, get_orders_by_customer, get_products_by_category,
        get_employees_by_region, get_suppliers_by_country, hc, queryEvents]
    case true =>
      simp only [get_customers_by_country, get_orders_by_customer, get_products_by_category,
        get_employees_by_region, get_suppliers_by_country, hc]
      rw [if_neg (by simp)]
      split
      next => split <;> simp [queryEvents]
      next => simp [queryEvents]
      next => simp [queryEvents]

/-- Looking up a key right after a Python dict assignment yields the
assigned value (last write wins). -/
theorem dictLookup_dictInsert {α : Type} (l : List (String × α)) (k : String) (v : α) :
    dictLookup (dictInsert l k v) k = some v := by
  induction l with
  | nil => simp [dictInsert, dictLookup]
  | cons hd tl ih =>
      obtain ⟨k', v'⟩ := hd
      by_cases h : k' = k <;> simp [dictInsert, dictLookup, h, ih]

/-- C10: `register_tool` never rejects a duplicate name: registering a name
that already exists appends a second descriptor to the list returned by
`get_tools` (both descriptors present, in registration order) while the
name-to-function dict is rebound last-write-wins, so resolving the name
afterwards returns the most recently registered function. -/
theorem duplicate_registration_last_write_wins (r : ToolRegistry) (n d1 d2 : String)
    (p1 p2 : ParamSchema) (f g : PyFunc) :
    ((r.register_tool n d1 p1 f).register_tool n d2 p2 g).get_tools
        = r.get_tools ++ [⟨"function", ⟨n, d1, p1⟩⟩, ⟨"function", ⟨n, d2, p2⟩⟩] ∧
    dictLookup ((r.register_tool n d1 p1 f).register_tool n d2 p2 g).get_tool_functions n
        = some g := by
  constructor
  · simp [ToolRegistry.register_tool, ToolRegistry.get_tools]
  · simp only [ToolRegistry.register_tool, ToolRegistry.get_tool_functions]
    exact dictLookup_dictInsert _ n g

/-- C8: For every tool name without an entry in the registry's function
dict, the dispatcher returns `\x7b"error": "Unknown tool: <name>"\x7d` and
performs no database event — no lookup function is invoked. -/
theorem unknown_tool_returns_error (tool_name : String) (params : ParsedArgs)
    (reg : ToolRegistry) (o : DbOracle)
    (h : dictLookup reg.get_tool_functions tool_name = none) :
    Main.call_mcp_tool tool_name params reg o
      = (.errDict ("Unknown tool: " ++ tool_name), []) := by
  simp [Main.call_mcp_tool, h]

/-- A database environment where the connection opens and every query
returns an empty dataframe. -/
def dbOracleEmpty : DbOracle :=
  { connOk := true, queryResult := fun _ _ => .rows ⟨["CompanyName"], []⟩ }

/-- Witness for C8: the concrete registry of `tools.py` has no entry named
`"bogus"`, and dispatching it returns the unknown-tool error dict with an
empty event trace. -/
theorem unknown_tool_returns_error_witness :
    Main.call_mcp_tool "bogus" (.pdict []) registry dbOracleEmpty
      = (.errDict ("Unknown tool: " ++ "bogus"), []) :=
  unknown_tool_returns_error "bogus" (.pdict []) registry dbOracleEmpty rfl

/-- A database environment where the connection opens and query execution
raises an exception that is not a `sqlite3.Error`. -/
def dbOracleNonSqlite : DbOracle :=
  { connOk := true, queryResult := fun _ _ => .err false "KeyboardInterrupt" }

/-- C2 counterexample: with the connection successfully opened, an exception
raised during query execution that is not a `sqlite3.Error` escapes
`get_customers_by_country` (the `except sqlite3.Error` clause does not match)
and no `conn.close()` is executed on that exit path. -/
theorem connection_close_counterexample :
    dbOracleNonSqlite.connOk = true ∧
    (get_customers_by_country "France" dbOracleNonSqlite).1
        = Except.error (Exn.otherError "KeyboardInterrupt") ∧
    DbEvent.closeConn ∉ (get_customers_by_country "France" dbOracleNonSqlite).2 :=
  ⟨rfl, rfl, by decide⟩

/-- C2 (amended): for each of the five lookup functions, on every exit path
on which the function RETURNS after a connection has been successfully
opened — success, empty result set, or a `sqlite3.Error` raised during query
execution — the connection is closed before the function returns (the event
trace is exactly open, execute, close); an exception of any other type
propagates out of the function with the connection left unclosed. -/
theorem connection_closed_on_function_return (arg : String) (o : DbOracle)
    (r : ToolResult) (hc : o.connOk = true) :
    ((get_customers_by_country arg o).1 = .ok r →
      (get_customers_by_country arg o).2
        = [.openConn, .execQuery customersQuery [arg], .closeConn]) ∧
    ((get_orders_by_customer arg o).1 = .ok r →
      (get_orders_by_customer arg o).2
        = [.openConn, .execQuery ordersQuery [arg], .closeConn]) ∧
    ((get_products_by_category arg o).1 = .ok r →
      (get_products_by_category arg o).2
        = [.openConn, .execQuery productsQuery [arg], .closeConn]) ∧
    ((get_employees_by_region arg o).1 = .ok r →
      (get_employees_by_region arg o).2
        = [.openConn, .execQuery employeesQuery [arg], .closeConn]) ∧
    ((get_suppliers_by_country arg o).1 = .ok r →
      (get_suppliers_by_country arg o).2
        = [.openConn, .execQuery suppliersQuery [arg], .closeConn]) := by
  refine ⟨?_, ?_, ?_, ?_, ?_⟩ <;>
  · simp only [get_customers_by_country, get_orders_by_customer, get_products_by_category,
      get_employees_by_region, get_suppliers_by_country, hc]
    split
    next h => simp at h
    next _ =>
      split
      next => split <;> simp
      next => simp
      next => simp

/-- Witness for C2 (amended): on the empty result set, the trace of
`get_customers_by_country` is exactly open, execute, close. -/
theorem connection_closed_on_function_return_witness :
    (get_customers_by_country "France" dbOracleEmpty).2
      = [DbEvent.openConn, DbEvent.execQuery customersQuery ["France"], DbEvent.closeConn] :=
  (connection_closed_on_function_return "France" dbOracleEmpty
    (.strList ["No customers found"]) rfl).1 rfl

/-- C3: for each of the five lookup functions, a `sqlite3.Error` raised
during query execution makes the function RETURN the structured record
`\x7b"error": "Database error: <message>"\x7d` (an `Except.ok`, not a raised
exception). -/
theorem db_error_returns_error_record (arg m : String) (o : DbOracle)
    (hc : o.connOk = true) :
    (o.queryResult customersQuery [arg] = .err true m →
      (get_customers_by_country arg o).1 = .ok (.errDict ("Database error: " ++ m))) ∧
    (o.queryResult ordersQuery [arg] = .err true m →
      (get_orders_by_customer arg o).1 = .ok (.errDict ("Database error: " ++ m))) ∧
    (o.queryResult productsQuery [arg] = .err true m →
      (get_products_by_category arg o).1 = .ok (.errDict ("Database error: " ++ m))) ∧
    (o.queryResult employeesQuery [arg] = .err true m →
      (get_employees_by_region arg o).1 = .ok (.errDict ("Database error: " ++ m))) ∧
    (o.queryResult suppliersQuery [arg] = .err true m →
      (get_suppliers_by_country arg o).1 = .ok (.errDict ("Database error: " ++ m))) := by
  refine ⟨?_, ?_, ?_, ?_, ?_⟩ <;>
  · intro hq
    simp [get_customers_by_country, get_orders_by_customer, get_products_by_category,
      get_employees_by_region, get_suppliers_by_country, hc, hq]

/-- A database environment where the connection opens and every query
raises a `sqlite3.Error`. -/
def dbOracleSqliteErr : DbOracle :=
  { connOk := true, queryResult := fun _ _ => .err true "no such table: Customers" }

/-- Witness for C3: a concrete `sqlite3.Error` becomes the error record. -/
theorem db_error_returns_error_record_witness :
    (get_customers_by_country "France" dbOracleSqliteErr).1
      = .ok (.errDict ("Database error: " ++ "no such table: Customers")) :=
  (db_error_returns_error_record "France" "no such table: Customers"
    dbOracleSqliteErr rfl).1 rfl

/-- C5: for each of the five lookup functions, an empty result set yields
the one-element Python list holding the function-specific message, never an
empty table. -/
theorem empty_result_yields_message (arg : String) (o : DbOracle) (t : Table)
    (hc : o.connOk = true) (ht : t.rows = []) :
    (o.queryResult customersQuery [arg] = .rows t →
      (get_customers_by_country arg o).1 = .ok (.strList ["No customers found"])) ∧
    (o.queryResult ordersQuery [arg] = .rows t →
      (get_orders_by_customer arg o).1 = .ok (.strList ["No orders found"])) ∧
    (o.queryResult productsQuery [arg] = .rows t →
      (get_products_by_category arg o).1 = .ok (.strList ["No products found"])) ∧
    (o.queryResult employeesQuery [arg] = .rows t →
      (get_employees_by_region arg o).1 = .ok (.strList ["No employees found"])) ∧
    (o.queryResult suppliersQuery [arg] = .rows t →
      (get_suppliers_by_country arg o).1 = .ok (.strList ["No suppliers found"])) := by
  refine ⟨?_, ?_, ?_, ?_, ?_⟩ <;>
  · intro hq
    simp [get_customers_by_country, get_orders_by_customer, get_products_by_category,
      get_employees_by_region, get_suppliers_by_country, hc, hq, ht]

/-- Witness for C5: the concrete empty dataframe yields the one-element
list `["No suppliers found"]`. -/
theorem empty_result_yields_message_witness :
    (get_suppliers_by_country "Atlantis" dbOracleEmpty).1
      = .ok (.strList ["No suppliers found"]) :=
  (empty_result_yields_message "Atlantis" dbOracleEmpty ⟨["CompanyName"], []⟩
    rfl rfl).2.2.2.2 rfl

/-- C6: if the pre-flight availability check fails (the `/api/tags` request
errors or the configured model name is absent from the endpoint's model
list), `get_tool_call` returns the error record without attempting any chat
call — the event trace holds only the tags probe — and `process_query`
finishes for that query without any further request. -/
theorem preflight_failure_short_circuits (q : String) (reg : ToolRegistry)
    (o : Oracle) (h : Main.check_ollama o = false) :
    Main.get_tool_call q reg o
      = (.ok (none, .err ("Ollama API or model " ++ Main.MODEL ++ " unavailable")),
         [.tagsRequest]) ∧
    Main.process_query q reg o = ("Unable to process query", [.tagsRequest]) := by
  constructor
  · simp [Main.get_tool_call, h]
  · simp [Main.process_query, Main.process_query_body, Main.get_tool_call, h,
      strTruthy, pyGetMessage]

/-- An environment whose model endpoint is unreachable. -/
def oracleDown : Oracle :=
  { tags := .error "connection refused"
    chat := .ok ⟨[], none⟩
    finalChat := .ok none
    jsonLoads := fun _ => .error "x"
    db := dbOracleEmpty }

/-- Witness for C6: with the endpoint unreachable, the query is answered
with the tags probe as the only event. -/
theorem preflight_failure_short_circuits_witness :
    Main.process_query "List all customers from France" registry oracleDown
      = ("Unable to process query", [Event.tagsRequest]) :=
  (preflight_failure_short_circuits "List all customers from France" registry
    oracleDown rfl).2

/-- C7: if the model's tool-call arguments arrive as a string on which
`json.loads` fails, the `ValueError` raised by `get_tool_call` is caught by
`process_query`'s catch-all and returned to the caller as the result string
(mentioning the parse failure); the trace shows exactly one tool-selection
chat request and exactly one parse attempt — the process neither crashes
nor retries the parse. -/
theorem malformed_arguments_reported (q s em : String) (reg : ToolRegistry)
    (o : Oracle) (tc : ToolCallData) (rest : List ToolCallData) (c : Option String)
    (hck : Main.check_ollama o = true)
    (hchat : o.chat = .ok ⟨tc :: rest, c⟩)
    (harg : tc.arguments = .str s)
    (hjson : o.jsonLoads s = .error em) :
    Main.process_query q reg o
      = ("Error processing query: " ++ ("Failed to parse arguments: " ++ em),
         [.tagsRequest, .chatToolSelect q reg.get_tools, .parseArgs s]) := by
  simp [Main.process_query, Main.process_query_body, Main.get_tool_call, hck,
    hchat, harg, hjson, exnMsg]

/-- An environment whose chat response carries string arguments that do not
parse as JSON. -/
def oracleJsonBad : Oracle :=
  { tags := .ok ["llama3.2:latest"]
    chat := .ok ⟨[⟨some "get_customers_by_country", .str "notjson"⟩], none⟩
    finalChat := .ok none
    jsonLoads := fun _ => .error "Expecting value"
    db := dbOracleEmpty }

/-- Witness for C7: the concrete malformed argument string produces the
parse-error result string after one selection request and one parse attempt. -/
theorem malformed_arguments_reported_witness :
    Main.process_query "hi" registry oracleJsonBad
      = ("Error processing query: " ++ ("Failed to parse arguments: " ++ "Expecting value"),
         [Event.tagsRequest, Event.chatToolSelect "hi" registry.get_tools,
          Event.parseArgs "notjson"]) :=
  malformed_arguments_reported "hi" "notjson" "Expecting value" registry oracleJsonBad
    ⟨some "get_customers_by_country", .str "notjson"⟩ [] none rfl rfl rfl rfl

/-- The only exception `main.get_tool_call` can let escape is the
`ValueError` it raises when `json.loads` fails on string arguments; every
other failure is converted into a returned value. -/
theorem get_tool_call_error_shape (q : String) (reg : ToolRegistry) (o : Oracle)
    (e : Exn) (ev : List Event)
    (h : Main.get_tool_call q reg o = (.error e, ev)) :
    ∃ m, e = Exn.valueError ("Failed to parse arguments: " ++ m) := by
  unfold Main.get_tool_call at h
  split at h
  · simp at h
  · split at h
    · simp at h
    · split at h
      · simp at h
      · split at h
        · split at h
          · simp at h
          · simp only [Prod.mk.injEq, Except.error.injEq] at h
            exact ⟨_, h.1.symm⟩
        · simp at h
        · simp at h

/-- `pyGetMessage` can only fail with an `AttributeError`. -/
theorem pyGetMessage_error_shape (params : ToolCallOut) (e : Exn)
    (h : pyGetMessage params = .error e) :
    ∃ m, e = Exn.attributeError m := by
  rcases params with m | m | p
  · simp [pyGetMessage] at h
  · simp [pyGetMessage] at h
  · rcases p with d | t
    · simp [pyGetMessage] at h
    · exact ⟨_, by simpa [pyGetMessage] using h.symm⟩

/-- C4: for every query string and every behaviour of the model endpoint,
the JSON parser and the database, `process_query` hands the caller a string
and never lets a raised fault escape: when the pipeline body returns a
string (a rendered answer or the fallback message) it is passed through,
and when the body raises — which can only be the argument-parse
`ValueError` or the `AttributeError` of reading `.get` off a non-dict
argument payload — the catch-all converts it into the human-readable
`"Error processing query: ..."` message. -/
theorem process_query_always_returns_string (q : String) (reg : ToolRegistry)
    (o : Oracle) :
    (∀ s, (Main.process_query_body q reg o).1 = Except.ok s →
        Main.process_query q reg o = (s, (Main.process_query_body q reg o).2)) ∧
    (∀ e, (Main.process_query_body q reg o).1 = Except.error e →
        Main.process_query q reg o
          = ("Error processing query: " ++ exnMsg e,
             (Main.process_query_body q reg o).2)) ∧
    (∀ e, (Main.process_query_body q reg o).1 = Except.error e →
        (∃ m, e = Exn.valueError m) ∨ (∃ m, e = Exn.attributeError m)) := by
  refine ⟨?_, ?_, ?_⟩
  · intro s hs
    unfold Main.process_query
    rcases hbody : Main.process_query_body q reg o with ⟨res, ev⟩
    rw [hbody] at hs
    simp only at hs
    subst hs
    rfl
  · intro e he
    unfold Main.process_query
    rcases hbody : Main.process_query_body q reg o with ⟨res, ev⟩
    rw [hbody] at he
    simp only at he
    subst he
    rfl
  · intro e he
    unfold Main.process_query_body at he
    rcases hg : Main.get_tool_call q reg o with ⟨gres, gev⟩
    rw [hg] at he
    rcases gres with e' | ⟨tn, params⟩
    · simp only [Except.error.injEq] at he
      obtain ⟨m, hm⟩ := get_tool_call_error_shape q reg o e' gev hg
      exact Or.inl ⟨_, he ▸ hm⟩
    · by_cases ht : strTruthy tn = true
      · simp [ht] at he
      · rw [Bool.not_eq_true] at ht
        simp only [ht, Bool.false_eq_true, if_false] at he
        rcases hpg : pyGetMessage params with e'' | s <;> rw [hpg] at he
        · simp only [Except.error.injEq] at he
          obtain ⟨m, hm⟩ := pyGetMessage_error_shape params e'' hpg
          exact Or.inr ⟨m, he ▸ hm⟩
        · simp at he

/-- Witness for C4: in the environment whose argument string fails to
parse, the body raises the `ValueError` and `process_query` hands the
caller the converted error-message string. -/
theorem process_query_always_returns_string_witness :
    Main.process_query "hi there" registry oracleJsonBad
      = ("Error processing query: "
          ++ exnMsg (Exn.valueError ("Failed to parse arguments: " ++ "Expecting value")),
         (Main.process_query_body "hi there" registry oracleJsonBad).2) :=
  (process_query_always_returns_string "hi there" registry oracleJsonBad).2.1
    (Exn.valueError ("Failed to parse arguments: " ++ "Expecting value")) rfl

/-- An environment (for `old_app.py`, whose model is `qwen2.5`) where the
chat response carries no tool calls and the phrasing call returns text. -/
def oracleNoTools : Oracle :=
  { tags := .ok ["qwen2.5:latest"]
    chat := .ok ⟨[], none⟩
    finalChat := .ok (some "Here are the customers.")
    jsonLoads := fun _ => .error "x"
    db := dbOracleEmpty }

/-- C9 counterexample: in `old_app.py`, with a model response containing no
tool calls, the query `"List all customers from France"` does NOT get the
no-tool message — the manual fallback parses the country out of the query
and dispatches `get_customers_by_country`, so the run opens a database
connection. -/
theorem no_tool_calls_db_access_counterexample :
    oracleNoTools.chat = ChatOutcome.ok ⟨[], none⟩ ∧
    (OldApp.process_query "List all customers from France" registry oracleNoTools).1
        ≠ noToolMessage ∧
    Event.db DbEvent.openConn
      ∈ (OldApp.process_query "List all customers from France" registry oracleNoTools).2 := by
  refine ⟨rfl, ?_, ?_⟩ <;> decide

/-- C9 (amended): if the model's response contains no tool calls, then
`main.py`'s orchestrator returns the message `"No specific tool required
for this query. Please refine your query or check tool availability."`
without any database access (the trace is exactly the tags probe and the
selection request); `old_app.py`'s orchestrator does the same only when the
lowercased query does not contain `"customers from"` — otherwise its manual
fallback dispatches `get_customers_by_country` instead. -/
theorem no_tool_calls_fallback_behavior (q : String) (reg : ToolRegistry)
    (o : Oracle) (c : Option String) (hchat : o.chat = .ok ⟨[], c⟩) :
    (Main.check_ollama o = true →
      Main.process_query q reg o
        = (noToolMessage, [.tagsRequest, .chatToolSelect q reg.get_tools])) ∧
    (OldApp.check_ollama o = true →
      strContainsSub (pyLower q) "customers from" = false →
      OldApp.process_query q reg o
        = (noToolMessage, [.tagsRequest, .chatToolSelect q reg.get_tools])) := by
  constructor
  · intro hck
    simp [Main.process_query, Main.process_query_body, Main.get_tool_call, hck,
      hchat, strTruthy, pyGetMessage]
  · intro hck hfb
    simp [OldApp.process_query, OldApp.process_query_body, OldApp.get_tool_call, hck,
      hchat, hfb, strTruthy, pyGetMessage]

/-- An environment listing both configured models, whose chat response
carries no tool calls. -/
def oracleBothNoTools : Oracle :=
  { tags := .ok ["llama3.2:latest", "qwen2.5:latest"]
    chat := .ok ⟨[], none⟩
    finalChat := .ok none
    jsonLoads := fun _ => .error "x"
    db := dbOracleEmpty }

/-- Witness for C9 (amended): on the query `"hello"` (which does not contain
`"customers from"`), both orchestrators return the no-tool message with no
database event in the trace. -/
theorem no_tool_calls_fallback_behavior_witness :
    Main.process_query "hello" registry oracleBothNoTools
      = (noToolMessage, [Event.tagsRequest, Event.chatToolSelect "hello" registry.get_tools]) ∧
    OldApp.process_query "hello" registry oracleBothNoTools
      = (noToolMessage, [Event.tagsRequest, Event.chatToolSelect "hello" registry.get_tools]) :=
  ⟨(no_tool_calls_fallback_behavior "hello" registry oracleBothNoTools none rfl).1 rfl,
   (no_tool_calls_fallback_behavior "hello" registry oracleBothNoTools none rfl).2 rfl
     (by decide)⟩
